import Mathlib

/-!
Shallow embedding of the ContentOptimizationToolkit pipeline
(`src/app.py`, `src/utils/api_client.py`, `src/utils/data_processor.py`).

External effects (HTTP requests, OpenAI calls, HTML parsing) are modelled by
explicit environment values describing what the external world returns at each
call site; every embedded function is total, mirroring the Python code's
catch-and-convert error handling.  Python string truthiness (`not s`) combined
with `s.strip()` is modelled through `pyStrip`.
-/

/-- Python `str.strip()`: drop whitespace from both ends of the string.
(Python strips a slightly larger whitespace class than `Char.isWhitespace`;
the difference is immaterial to the claims, which quantify over strip's
result.) -/
def pyStrip (s : String) : String :=
  ⟨((s.data.dropWhile Char.isWhitespace).reverse.dropWhile Char.isWhitespace).reverse⟩

/-- Result of an external call that can either return a value or raise. -/
inductive CallResult (α : Type) where
  | ok (val : α)
  | exn
deriving DecidableEq

/-- The JSON body returned by the Ahrefs endpoint, reduced to the part
`fetch_top_urls` reads: the optional `positions` list, each item modelled by
its optional `url` field (`none` = key absent or JSON null). -/
structure AhrefsResponse where
  positions : Option (List (Option String))
deriving DecidableEq

/-- Outcome of the `requests.get` call in `fetch_top_urls`: either some
`requests.exceptions.RequestException` was raised (transport error, HTTP
error status via `raise_for_status`, or JSON decode error), or a decoded
response body. -/
inductive NetResult where
  | requestError
  | success (resp : AhrefsResponse)
deriving DecidableEq

/-- Return value of `fetch_top_urls` paired with whether the HTTP request was
issued at all. -/
structure TopUrlsResult where
  urls : List String
  networkCalled : Bool
deriving DecidableEq

/-- Python truthiness filter used by `fetch_top_urls`'s list comprehension:
`item.get("url")` is truthy exactly when the field is present and non-empty. -/
def truthyUrl (item : Option String) : Option String :=
  match item with
  | none => none
  | some s => if s = "" then none else some s

/-- `APIClient.fetch_top_urls` (src/utils/api_client.py, lines 14-57).
A blank keyword short-circuits before the request; a request error or a falsy
`positions` value yields `[]`; otherwise the list comprehension
`[item["url"] for item in results["positions"] if item.get("url")]`. -/
def fetch_top_urls (keyword : String) (num_searches : Nat) (net : NetResult) : TopUrlsResult :=
  if pyStrip keyword = "" then { urls := [], networkCalled := false }
  else
    match net with
    | .requestError => { urls := [], networkCalled := true }
    | .success resp =>
      match resp.positions with
      | none => { urls := [], networkCalled := true }
      | some items =>
        if items.isEmpty then { urls := [], networkCalled := true }
        else { urls := items.filterMap truthyUrl, networkCalled := true }

/-- Outcome of the webpage request in `fetch_webpage_content`: a transport
error, a document with no `body` element, or the plain text produced by the
BeautifulSoup cleanup plus html2text conversion of the body. -/
inductive PageOutcome where
  | requestError
  | noBody
  | bodyText (t : String)
deriving DecidableEq

/-- `APIClient.fetch_webpage_content` (src/utils/api_client.py, lines 59-131).
Blank URL, transport error, missing body, or cleaned text whose stripped
length is below 200 all yield `none`; otherwise the (unstripped) text. -/
def fetch_webpage_content (url : String) (page : PageOutcome) : Option String :=
  if pyStrip url = "" then none
  else
    match page with
    | .requestError => none
    | .noBody => none
    | .bodyText t => if (pyStrip t).length < 200 then none else some t

/-- Outcome of the OpenAI chat-completion call in
`summarize_content_with_openai`: an exception, or a response modelled by its
list of choice message contents (`none` = falsy response object). -/
inductive SummarizeOutcome where
  | apiError (e : String)
  | response (choices : Option (List String))
deriving DecidableEq

/-- `APIClient.summarize_content_with_openai` (src/utils/api_client.py,
lines 133-186).  Blank text short-circuits to `none`; a truthy response with a
nonempty `choices` list yields the stripped first choice; everything else
(falsy response, empty choices, any exception) yields `none`. -/
def summarize_content_with_openai (text : String) (env : SummarizeOutcome) : Option String :=
  if pyStrip text = "" then none
  else
    match env with
    | .apiError _ => none
    | .response none => none
    | .response (some []) => none
    | .response (some (c :: _)) => some (pyStrip c)

/-- One labelled competitor-summary block of the analysis prompt:
`f"Competitor {i} Summary:\n{summary}\n\n"`. -/
def competitorBlock (i : Nat) (summary : String) : String :=
  "Competitor " ++ toString i ++ " Summary:\n" ++ summary ++ "\n\n"

/-- The `for i, summary in enumerate(competitor_summaries, 1)` accumulation of
labelled blocks in `analyze_content_with_openai`. -/
def competitorBlocks (i : Nat) (summaries : List String) : String :=
  match summaries with
  | [] => ""
  | s :: rest => competitorBlock i s ++ competitorBlocks (i + 1) rest

/-- The fixed closing paragraph of the analysis prompt requesting the five
analysis sections (adjacent Python string literals concatenated). -/
def analysisRequirements : String :=
  "Your analysis should include:\n"
    ++ "1. Overall content strengths and weaknesses\n"
    ++ "2. Keyword optimization suggestions\n"
    ++ "3. Readability and structure improvements\n"
    ++ "4. Recommended content revisions\n"
    ++ "5. SEO enhancement strategies"

/-- The five analysis sections the prompt requests, as listed in the spec. -/
def requiredAnalysisSections : List String :=
  ["1. Overall content strengths and weaknesses",
   "2. Keyword optimization suggestions",
   "3. Readability and structure improvements",
   "4. Recommended content revisions",
   "5. SEO enhancement strategies"]

/-- The user prompt built by `analyze_content_with_openai`
(src/utils/api_client.py, lines 212-230): header with content and keyword,
then, when the summary list is truthy (nonempty), the competitor section with
one labelled block per summary, then the five requirements. -/
def buildAnalysisPrompt (text keyword : String) (summaries : List String) : String :=
  ("Content to analyze:\n" ++ text ++ "\n\n" ++ "Focus keyword: " ++ keyword ++ "\n\n")
    ++ (if summaries.isEmpty then ""
        else "Competitor content summaries (for context):\n" ++ competitorBlocks 1 summaries)
    ++ analysisRequirements

/-- The shapes a value returned by `analyze_content_with_openai` can take:
the `{"error": ...}` dict for blank input, the streaming response object, the
`f"error: {e}"` string from the except branch, and Python's implicit `None`
when the call succeeds but the response is falsy. -/
inductive AnalyzeResult where
  | errorDict (msg : String)
  | stream
  | errorString (msg : String)
  | pyNone
deriving DecidableEq

/-- Outcome of the streaming OpenAI call in `analyze_content_with_openai`:
an exception, or a response whose Python truthiness is the given Bool. -/
inductive AnalyzeEnv where
  | apiError (e : String)
  | response (truthy : Bool)
deriving DecidableEq

/-- What one invocation of `analyze_content_with_openai` did: its return
value, whether the network call was issued, and the prompt sent (if any). -/
structure AnalyzeCall where
  result : AnalyzeResult
  networkCalled : Bool
  promptSent : Option String
deriving DecidableEq

/-- `APIClient.analyze_content_with_openai` (src/utils/api_client.py,
lines 188-249).  Blank text returns the error dict before any call; otherwise
the prompt is built and the streaming call issued: an exception yields the
`"error: ..."` string, a truthy response is returned as the stream, and a
falsy response falls through to Python's implicit `None`. -/
def analyze_content_with_openai (text keyword : String) (summaries : List String)
    (env : AnalyzeEnv) : AnalyzeCall :=
  if pyStrip text = "" then
    { result := .errorDict "No text provided for analysis.", networkCalled := false,
      promptSent := none }
  else
    match env with
    | .apiError e =>
      { result := .errorString ("error: " ++ e), networkCalled := true,
        promptSent := some (buildAnalysisPrompt text keyword summaries) }
    | .response true =>
      { result := .stream, networkCalled := true,
        promptSent := some (buildAnalysisPrompt text keyword summaries) }
    | .response false =>
      { result := .pyNone, networkCalled := true,
        promptSent := some (buildAnalysisPrompt text keyword summaries) }

/-- Per-URL external world for one iteration of the
`DataProcessor.get_competitor_summaries` loop: what the call
`APIClient.fetch_webpage_content(url)` did (returned a value, or raised an
exception not caught inside it), and likewise for
`APIClient.summarize_content_with_openai(content)`. -/
structure UrlEnv where
  fetched : CallResult (Option String)
  summarized : CallResult (Option String)
deriving DecidableEq

/-- The summary string appended for one URL by the loop body of
`get_competitor_summaries` (src/utils/data_processor.py, lines 21-46):
a raised exception anywhere in the try block, a falsy fetched content, or a
falsy summary each append `""`; a truthy summary is appended as is. -/
def processUrl (e : UrlEnv) : String :=
  match e.fetched with
  | .exn => ""
  | .ok none => ""
  | .ok (some content) =>
    if content = "" then ""
    else
      match e.summarized with
      | .exn => ""
      | .ok none => ""
      | .ok (some summary) => if summary = "" then "" else summary

/-- Whether the fetch or summarization of one URL failed (raised, returned a
falsy content, or returned a falsy summary). -/
def urlFailed (e : UrlEnv) : Bool :=
  match e.fetched with
  | .exn => true
  | .ok none => true
  | .ok (some content) =>
    if content = "" then true
    else
      match e.summarized with
      | .exn => true
      | .ok none => true
      | .ok (some summary) => summary = ""

/-- The progress percentage reported after processing URL number `idx` (1-based)
of `total`: Python `min(25 + int((50 / total_urls) * idx), 100)`
(src/utils/data_processor.py, lines 48-50).  The float multiplication and
`int` truncation are modelled as exact natural floor division. -/
def progressValue (total idx : Nat) : Nat :=
  min (25 + 50 * idx / total) 100

/-- Whether an iteration of the `get_competitor_summaries` loop reaches the
progress-bar update at the bottom of the loop body: the fetch-failure branch
ends in `continue` (src/utils/data_processor.py, line 31), skipping it, so
only iterations whose fetch returned truthy content — or whose try block
raised and was caught by the `except`, which falls through to the update —
report progress. -/
def reportsProgress (e : UrlEnv) : Bool :=
  match e.fetched with
  | .exn => true
  | .ok none => false
  | .ok (some content) => !(content = "")

/-- The `for idx, url in enumerate(urls, 1)` loop of
`get_competitor_summaries`: for each URL, the appended summary string paired
with the progress percentage reported at the end of that iteration, or `none`
when the fetch-failure `continue` skipped the progress-bar update. -/
def summariesLoop (urls : List String) (idx total : Nat) (env : Nat → UrlEnv) :
    List (String × Option Nat) :=
  match urls with
  | [] => []
  | _ :: rest =>
    (processUrl (env idx),
      if reportsProgress (env idx) then some (progressValue total idx) else none)
      :: summariesLoop rest (idx + 1) total env

/-- `DataProcessor.get_competitor_summaries` (src/utils/data_processor.py,
lines 9-52): the list of summaries accumulated by the loop, one per URL. -/
def get_competitor_summaries (urls : List String) (env : Nat → UrlEnv) : List String :=
  (summariesLoop urls 1 urls.length env).map Prod.fst

/-- The sequence of progress percentages actually reported to the progress
bar by `get_competitor_summaries`, in order: iterations skipped by the
fetch-failure `continue` contribute no value. -/
def progressReports (urls : List String) (env : Nat → UrlEnv) : List Nat :=
  (summariesLoop urls 1 urls.length env).filterMap Prod.snd

/-- The Streamlit session state as far as `run_content_analysis` touches it:
the user content, the keyword, and the stored `st.session_state["result"]`
(`none` = key absent). -/
structure SessionState where
  user_content : String
  keyword : String
  result : Option AnalyzeResult
deriving DecidableEq

/-- External world for one invocation of `run_content_analysis`: the search
backend outcome, the per-URL fetch/summarize outcomes, the analysis call
outcome, and whether some unexpected exception (e.g. from a UI call) is
raised inside the try block before the result assignment. -/
structure RunEnv where
  net : NetResult
  urlEnv : Nat → UrlEnv
  analyzeEnv : AnalyzeEnv
  unexpectedExn : Bool

/-- `run_content_analysis` (src/app.py, lines 105-143): returns the updated
session state together with a flag telling whether
`st.session_state["result"]` was assigned during the run.  Empty content
returns before the try block; an empty URL list returns from inside it; an
unexpected exception is caught by the top-level except; only the full
success path assigns the analysis result. -/
def run_content_analysis (s : SessionState) (numSearches : Nat) (env : RunEnv) :
    SessionState × Bool :=
  if s.user_content = "" then (s, false)
  else
    let urls := (fetch_top_urls s.keyword numSearches env.net).urls
    if urls = [] then (s, false)
    else if env.unexpectedExn then (s, false)
    else
      let summaries := get_competitor_summaries urls env.urlEnv
      let analysis := analyze_content_with_openai s.user_content s.keyword summaries env.analyzeEnv
      ({ s with result := some analysis.result }, true)

/-- A session state holding a previously stored analysis result but empty
user content. -/
def priorResultState : SessionState :=
  { user_content := "", keyword := "kw", result := some (.errorString "prior") }

/-- A run environment whose search call fails; no stage after it is reached. -/
def inertRunEnv : RunEnv :=
  { net := .requestError, urlEnv := fun _ => ⟨.ok none, .ok none⟩,
    analyzeEnv := .response true, unexpectedExn := false }

/-- A session state with content and a previously stored result. -/
def busySessionState : SessionState :=
  { user_content := "body text", keyword := "kw", result := some (.errorString "old") }

/-- A run environment in which every stage succeeds: the search returns one
URL, its fetch and summarization succeed, and the analysis call returns a
truthy streaming response. -/
def successRunEnv : RunEnv :=
  { net := .success { positions := some [some "http://a"] },
    urlEnv := fun _ => ⟨.ok (some "page content"), .ok (some "a summary")⟩,
    analyzeEnv := .response true, unexpectedExn := false }

/-- The list comprehension filter/extract of `fetch_top_urls`, restated as a
filter of truthy items followed by extraction of the url field. -/
theorem filterMap_truthyUrl_eq_filter_map (items : List (Option String)) :
    items.filterMap truthyUrl
      = (items.filter (fun it => decide (it.getD "" ≠ ""))).map (fun it => it.getD "") := by
  induction items with
  | nil => rfl
  | cons a rest ih =>
    cases a with
    | none => simpa [truthyUrl] using ih
    | some s =>
      by_cases hs : s = "" <;> simp [truthyUrl, hs, ih]

/-- Claim C2: for every keyword whose Python strip is empty and every count,
`fetch_top_urls` returns an empty URL list and issues no network call,
whatever the network would have answered. -/
theorem fetch_top_urls_blank_keyword (keyword : String) (num_searches : Nat)
    (h : pyStrip keyword = "") :
    ∀ net, fetch_top_urls keyword num_searches net
      = { urls := [], networkCalled := false } := by
  intro net
  simp [fetch_top_urls, h]

/-- Witness for C2 at the whitespace-only keyword. -/
theorem fetch_top_urls_blank_keyword_witness :
    pyStrip "   " = "" ∧
      fetch_top_urls "   " 10 (.success { positions := some [some "http://a"] })
        = { urls := [], networkCalled := false } :=
  ⟨by decide, fetch_top_urls_blank_keyword "   " 10 (by decide) _⟩

/-- Claim C6: for a non-blank keyword, `fetch_top_urls` returns exactly the
url fields of the truthy-url items of the `positions` list in response order,
dropping url-less entries; a transport/HTTP error or a response without
`positions` yields an empty list (the embedding is total: no exception
escapes to the caller). -/
theorem fetch_top_urls_extraction (keyword : String) (num_searches : Nat)
    (hk : pyStrip keyword ≠ "") :
    (∀ items, (fetch_top_urls keyword num_searches (.success { positions := some items })).urls
        = (items.filter (fun it => decide (it.getD "" ≠ ""))).map (fun it => it.getD "")) ∧
    (fetch_top_urls keyword num_searches .requestError).urls = [] ∧
    (fetch_top_urls keyword num_searches (.success { positions := none })).urls = [] := by
  refine ⟨fun items => ?_, by simp [fetch_top_urls, hk], by simp [fetch_top_urls, hk]⟩
  cases items with
  | nil => simp [fetch_top_urls, hk]
  | cons a rest =>
    simp [fetch_top_urls, hk, filterMap_truthyUrl_eq_filter_map]

/-- Witness for C6: one absent url, one empty url, two truthy urls. -/
theorem fetch_top_urls_extraction_witness :
    pyStrip "laptops" ≠ "" ∧
      (fetch_top_urls "laptops" 4
          (.success { positions := some [some "http://a", none, some "", some "http://b"] })).urls
        = ["http://a", "http://b"] :=
  ⟨by decide, by
    rw [(fetch_top_urls_extraction "laptops" 4 (by decide)).1
      [some "http://a", none, some "", some "http://b"]]
    decide⟩

/-- Claim C3: `fetch_webpage_content` returns `none` (never the text itself)
whenever the cleaned text's stripped length is under 200 characters, and
likewise when the document has no body or the request fails. -/
theorem fetch_webpage_content_short_rejected (url : String) :
    (∀ t, (pyStrip t).length < 200 → fetch_webpage_content url (.bodyText t) = none) ∧
    fetch_webpage_content url .noBody = none ∧
    fetch_webpage_content url .requestError = none := by
  refine ⟨fun t ht => ?_, ?_, ?_⟩
  · by_cases hu : pyStrip url = "" <;> simp [fetch_webpage_content, hu, ht]
  · by_cases hu : pyStrip url = "" <;> simp [fetch_webpage_content, hu]
  · by_cases hu : pyStrip url = "" <;> simp [fetch_webpage_content, hu]

/-- Witness for C3 at a 5-character page text. -/
theorem fetch_webpage_content_short_rejected_witness :
    (pyStrip "short").length < 200 ∧
      fetch_webpage_content "http://example.com" (.bodyText "short") = none :=
  ⟨by decide, (fetch_webpage_content_short_rejected "http://example.com").1 "short" (by decide)⟩

/-- Claim C7: `summarize_content_with_openai` never raises (the embedding is
total); with a truthy response holding at least one choice it returns the
stripped first choice content, and it returns `none` when the choices list is
empty, the response is falsy, or the call raises. -/
theorem summarize_content_outcomes (text : String) (h : pyStrip text ≠ "") :
    (∀ c rest, summarize_content_with_openai text (.response (some (c :: rest)))
        = some (pyStrip c)) ∧
    summarize_content_with_openai text (.response (some [])) = none ∧
    summarize_content_with_openai text (.response none) = none ∧
    (∀ e, summarize_content_with_openai text (.apiError e) = none) := by
  refine ⟨fun c rest => ?_, ?_, ?_, fun e => ?_⟩ <;>
    simp [summarize_content_with_openai, h]

/-- Witness for C7 at concrete text and a one-choice response. -/
theorem summarize_content_outcomes_witness :
    pyStrip "an article" ≠ "" ∧
      summarize_content_with_openai "an article" (.response (some [" A summary. "]))
        = some "A summary." :=
  ⟨by decide, by
    rw [(summarize_content_outcomes "an article" (by decide)).1 " A summary. " []]
    decide⟩

/-- Claim C4: for blank content, `analyze_content_with_openai` returns the
structured error dict with no network call and no prompt sent, and the result
is not the stream shape, for every keyword, summary list, and environment. -/
theorem analyze_blank_content_error_dict (text : String) (h : pyStrip text = "") :
    ∀ keyword summaries env,
      analyze_content_with_openai text keyword summaries env
        = { result := .errorDict "No text provided for analysis.",
            networkCalled := false, promptSent := none }
      ∧ (analyze_content_with_openai text keyword summaries env).result ≠ .stream := by
  intro keyword summaries env
  refine ⟨by simp [analyze_content_with_openai, h], ?_⟩
  simp [analyze_content_with_openai, h]

/-- Witness for C4 at a whitespace-only content string. -/
theorem analyze_blank_content_error_dict_witness :
    pyStrip " " = "" ∧
      analyze_content_with_openai " " "kw" ["s1"] (.response true)
        = { result := .errorDict "No text provided for analysis.",
            networkCalled := false, promptSent := none } :=
  ⟨by decide, (analyze_blank_content_error_dict " " (by decide) "kw" ["s1"] (.response true)).1⟩

/-- Claim C10: `analyze_content_with_openai` always returns (the embedding is
total) but its non-stream outcomes take three distinct shapes: the error dict
for blank content, the `"error: ..."` string when the provider call raises,
and the implicit `None` fall-through when the call succeeds with a falsy
response; a truthy response is returned as the stream. -/
theorem analyze_result_shapes (text keyword : String) (summaries : List String)
    (h : pyStrip text ≠ "") :
    (∀ e, (analyze_content_with_openai text keyword summaries (.apiError e)).result
        = .errorString ("error: " ++ e)) ∧
    (analyze_content_with_openai text keyword summaries (.response false)).result
        = .pyNone ∧
    (analyze_content_with_openai text keyword summaries (.response true)).result
        = .stream ∧
    (∀ t keyword' summaries' env, pyStrip t = "" →
      (analyze_content_with_openai t keyword' summaries' env).result
        = .errorDict "No text provided for analysis.") ∧
    (∀ m m', AnalyzeResult.errorDict m ≠ .errorString m'
      ∧ AnalyzeResult.errorDict m ≠ .pyNone ∧ AnalyzeResult.errorString m' ≠ .pyNone) := by
  refine ⟨fun e => ?_, ?_, ?_, fun t keyword' summaries' env ht => ?_, fun m m' => ?_⟩ <;>
    simp [analyze_content_with_openai, h, *]

/-- Witness for C10 at concrete inputs exercising all three failure shapes. -/
theorem analyze_result_shapes_witness :
    pyStrip "content" ≠ "" ∧
      (analyze_content_with_openai "content" "kw" [] (.apiError "boom")).result
        = .errorString "error: boom" ∧
      (analyze_content_with_openai "content" "kw" [] (.response false)).result = .pyNone ∧
      (analyze_content_with_openai "" "kw" [] (.response true)).result
        = .errorDict "No text provided for analysis." :=
  ⟨by decide,
    by rw [(analyze_result_shapes "content" "kw" [] (by decide)).1 "boom"]; decide,
    (analyze_result_shapes "content" "kw" [] (by decide)).2.1,
    (analyze_result_shapes "content" "kw" [] (by decide)).2.2.2.1 "" "kw" [] (.response true)
      (by decide)⟩

/-- Splitting the accumulated competitor blocks around the block of the
summary at 0-based position `i` (labelled `k + i` when numbering starts
at `k`). -/
theorem competitorBlocks_split (summaries : List String) :
    ∀ k i (hi : i < summaries.length), ∃ pre post,
      competitorBlocks k summaries
        = pre ++ competitorBlock (k + i) (summaries.get ⟨i, hi⟩) ++ post := by
  induction summaries with
  | nil => intro k i hi; exact absurd hi (Nat.not_lt_zero i)
  | cons s rest ih =>
    intro k i hi
    cases i with
    | zero =>
      refine ⟨"", competitorBlocks (k + 1) rest, ?_⟩
      simp [competitorBlocks, String.empty_append]
    | succ j =>
      obtain ⟨pre, post, hsplit⟩ := ih (k + 1) j (by simpa using Nat.lt_of_succ_lt_succ hi)
      refine ⟨competitorBlock k s ++ pre, post, ?_⟩
      have hnum : k + 1 + j = k + (j + 1) := by omega
      rw [competitorBlocks, hsplit, hnum]
      simp [String.append_assoc, List.get]

set_option maxRecDepth 20000 in
/-- Each of the five required sections occurs inside the fixed requirements
paragraph, with explicit surrounding text. -/
theorem analysisRequirements_split (sec : String) (hs : sec ∈ requiredAnalysisSections) :
    ∃ x y, analysisRequirements = x ++ sec ++ y := by
  simp only [requiredAnalysisSections, List.mem_cons, List.not_mem_nil, or_false] at hs
  rcases hs with rfl | rfl | rfl | rfl | rfl
  · exact ⟨"Your analysis should include:\n",
      "\n2. Keyword optimization suggestions\n3. Readability and structure improvements\n4. Recommended content revisions\n5. SEO enhancement strategies",
      by decide⟩
  · exact ⟨"Your analysis should include:\n1. Overall content strengths and weaknesses\n",
      "\n3. Readability and structure improvements\n4. Recommended content revisions\n5. SEO enhancement strategies",
      by decide⟩
  · exact ⟨"Your analysis should include:\n1. Overall content strengths and weaknesses\n2. Keyword optimization suggestions\n",
      "\n4. Recommended content revisions\n5. SEO enhancement strategies",
      by decide⟩
  · exact ⟨"Your analysis should include:\n1. Overall content strengths and weaknesses\n2. Keyword optimization suggestions\n3. Readability and structure improvements\n",
      "\n5. SEO enhancement strategies",
      by decide⟩
  · exact ⟨"Your analysis should include:\n1. Overall content strengths and weaknesses\n2. Keyword optimization suggestions\n3. Readability and structure improvements\n4. Recommended content revisions\n",
      "",
      by decide⟩

set_option maxRecDepth 20000 in
/-- Counterexample to claim C8 as stated: an empty-string placeholder summary
IS embedded in the prompt, labelled by its position — with the summary list
holding one empty placeholder, the prompt contains the labelled block for the
placeholder and differs from the prompt built with no summaries at all. -/
theorem analyze_prompt_embeds_empty_placeholder :
    competitorBlock 1 "" = "Competitor 1 Summary:\n\n\n"
    ∧ buildAnalysisPrompt "my content" "kw" [""]
      = "Content to analyze:\nmy content\n\nFocus keyword: kw\n\n"
        ++ ("Competitor content summaries (for context):\n" ++ competitorBlock 1 "")
        ++ analysisRequirements
    ∧ buildAnalysisPrompt "my content" "kw" [""] ≠ buildAnalysisPrompt "my content" "kw" [] :=
  ⟨by decide, by decide, by decide⟩

/-- Claim C8 (amended): for non-blank content the same single prompt is sent
in every environment; it embeds the content and the keyword in its header,
embeds EVERY competitor summary — including empty-string placeholders —
labelled by its 1-based position, and contains each of the five required
analysis sections. -/
theorem analyze_prompt_structure (text keyword : String) (summaries : List String)
    (h : pyStrip text ≠ "") :
    (∀ env, (analyze_content_with_openai text keyword summaries env).promptSent
        = some (buildAnalysisPrompt text keyword summaries)) ∧
    (∃ post, buildAnalysisPrompt text keyword summaries
        = "Content to analyze:\n" ++ text ++ "\n\n" ++ "Focus keyword: "
            ++ keyword ++ "\n\n" ++ post) ∧
    (∀ i (hi : i < summaries.length), ∃ pre post,
      buildAnalysisPrompt text keyword summaries
        = pre ++ ("Competitor " ++ toString (i + 1) ++ " Summary:\n"
            ++ summaries.get ⟨i, hi⟩ ++ "\n\n") ++ post) ∧
    (∀ sec ∈ requiredAnalysisSections, ∃ pre post,
      buildAnalysisPrompt text keyword summaries = pre ++ sec ++ post) := by
  refine ⟨?_, ?_, ?_, ?_⟩
  · intro env
    cases env with
    | apiError e => simp [analyze_content_with_openai, h]
    | response b => cases b <;> simp [analyze_content_with_openai, h]
  · refine ⟨(if summaries.isEmpty then ""
        else "Competitor content summaries (for context):\n" ++ competitorBlocks 1 summaries)
          ++ analysisRequirements, ?_⟩
    simp [buildAnalysisPrompt, String.append_assoc]
  · intro i hi
    have hne : summaries.isEmpty = false := by
      cases summaries with
      | nil => simp at hi
      | cons a rest => rfl
    obtain ⟨pre, post, hsplit⟩ := competitorBlocks_split summaries 1 i hi
    rw [Nat.add_comm 1 i] at hsplit
    refine ⟨"Content to analyze:\n" ++ text ++ "\n\n" ++ "Focus keyword: "
        ++ keyword ++ "\n\nCompetitor content summaries (for context):\n" ++ pre,
      post ++ analysisRequirements, ?_⟩
    simp only [buildAnalysisPrompt, hne, Bool.false_eq_true, if_false, hsplit, competitorBlock]
    simp [String.append_assoc]
    rw [← String.append_assoc "\n\n" "Competitor content summaries (for context):\n"]
    simp [String.append_assoc]
  · intro sec hs
    obtain ⟨x, y, hxy⟩ := analysisRequirements_split sec hs
    refine ⟨("Content to analyze:\n" ++ text ++ "\n\n" ++ "Focus keyword: "
        ++ keyword ++ "\n\n")
      ++ (if summaries.isEmpty then ""
          else "Competitor content summaries (for context):\n" ++ competitorBlocks 1 summaries)
      ++ x, y, ?_⟩
    simp only [buildAnalysisPrompt, hxy]
    simp [String.append_assoc]

/-- Witness for the amended C8 at a list holding an empty placeholder and a
real summary. -/
theorem analyze_prompt_structure_witness :
    pyStrip "my article" ≠ "" ∧
      (analyze_content_with_openai "my article" "kw" ["", "real summary"]
          (.response true)).promptSent
        = some (buildAnalysisPrompt "my article" "kw" ["", "real summary"]) ∧
      (∃ pre post, buildAnalysisPrompt "my article" "kw" ["", "real summary"]
        = pre ++ ("Competitor " ++ toString (0 + 1) ++ " Summary:\n"
            ++ (["", "real summary"].get ⟨0, by decide⟩) ++ "\n\n") ++ post) :=
  ⟨by decide,
    (analyze_prompt_structure "my article" "kw" ["", "real summary"] (by decide)).1
      (.response true),
    (analyze_prompt_structure "my article" "kw" ["", "real summary"] (by decide)).2.2.1 0
      (by decide)⟩

/-- Characterization of the per-URL loop: the entry at 0-based position `k`
is produced from the outcome and progress reporting of iteration `idx + k`. -/
theorem summariesLoop_eq_map_range (urls : List String) :
    ∀ idx total (env : Nat → UrlEnv),
      summariesLoop urls idx total env
        = (List.range urls.length).map
            (fun k => (processUrl (env (idx + k)),
              if reportsProgress (env (idx + k)) then some (progressValue total (idx + k))
              else none)) := by
  induction urls with
  | nil => intro idx total env; rfl
  | cons u rest ih =>
    intro idx total env
    rw [summariesLoop, ih (idx + 1) total env]
    simp only [List.length_cons, List.range_succ_eq_map, List.map_cons, List.map_map,
      Nat.add_zero]
    congr 1
    apply List.map_congr_left
    intro k _
    have hnum : idx + 1 + k = idx + (k + 1) := by omega
    simp [Function.comp, hnum]

/-- Claim C1: `get_competitor_summaries` returns exactly one summary per URL:
the result has the same length as the URL list, its entry at position `k` is
determined by the outcome of iteration `k + 1` (so positions correspond), and
every iteration whose fetch or summarization failed or raised contributes the
empty-string placeholder. -/
theorem get_competitor_summaries_alignment (urls : List String) (env : Nat → UrlEnv) :
    (get_competitor_summaries urls env).length = urls.length ∧
    get_competitor_summaries urls env
      = (List.range urls.length).map (fun k => processUrl (env (k + 1))) ∧
    (∀ e, urlFailed e = true → processUrl e = "") := by
  refine ⟨?_, ?_, ?_⟩
  · rw [get_competitor_summaries, summariesLoop_eq_map_range]
    simp
  · rw [get_competitor_summaries, summariesLoop_eq_map_range]
    simp only [List.map_map]
    apply List.map_congr_left
    intro k _
    have hnum : 1 + k = k + 1 := Nat.add_comm 1 k
    simp [Function.comp, hnum]
  · intro e he
    rcases e with ⟨fetched, summarized⟩
    rcases fetched with content | _
    · rcases content with _ | c
      · rfl
      · by_cases hc : c = ""
        · simp [processUrl, hc]
        · rcases summarized with summary | _
          · rcases summary with _ | s
            · simp [processUrl, hc]
            · have hs : s = "" := by
                simpa [urlFailed, hc] using he
              simp [processUrl, hc, hs]
          · simp [processUrl, hc]
    · rfl

/-- Witness for C1: three URLs, where the first fetch raises, the second
summarization returns a falsy summary, and the third succeeds. -/
theorem get_competitor_summaries_alignment_witness :
    (get_competitor_summaries ["http://a", "http://b", "http://c"]
        (fun idx =>
          if idx = 1 then ⟨.exn, .ok none⟩
          else if idx = 2 then ⟨.ok (some "content b"), .ok (some "")⟩
          else ⟨.ok (some "content c"), .ok (some "summary c")⟩)).length = 3 ∧
      get_competitor_summaries ["http://a", "http://b", "http://c"]
        (fun idx =>
          if idx = 1 then ⟨.exn, .ok none⟩
          else if idx = 2 then ⟨.ok (some "content b"), .ok (some "")⟩
          else ⟨.ok (some "content c"), .ok (some "summary c")⟩)
        = ["", "", "summary c"] ∧
      urlFailed ⟨.exn, .ok none⟩ = true ∧
      processUrl ⟨.exn, .ok none⟩ = "" := by
  have h := get_competitor_summaries_alignment ["http://a", "http://b", "http://c"]
    (fun idx =>
      if idx = 1 then ⟨.exn, .ok none⟩
      else if idx = 2 then ⟨.ok (some "content b"), .ok (some "")⟩
      else ⟨.ok (some "content c"), .ok (some "summary c")⟩)
  refine ⟨h.1.trans (by decide), h.2.1.trans (by decide), by decide,
    h.2.2 ⟨.exn, .ok none⟩ (by decide)⟩

/-- A filterMap whose function is an if-then-some-else-none is the map over
the filtered list. -/
theorem filterMap_ite_eq_map_filter {α β : Type} (p : α → Bool) (f : α → β) (l : List α) :
    (l.filterMap fun a => if p a then some (f a) else none) = (l.filter p).map f := by
  induction l with
  | nil => rfl
  | cons a rest ih => by_cases hp : p a <;> simp [hp, ih]

/-- The progress values reported by the loop are those of the iterations
`1 .. total` that reach the progress-bar update, in order. -/
theorem progressReports_eq_map_filter_range (urls : List String) (env : Nat → UrlEnv) :
    progressReports urls env
      = ((List.range urls.length).filter (fun k => reportsProgress (env (k + 1)))).map
          (fun k => progressValue urls.length (k + 1)) := by
  rw [progressReports, summariesLoop_eq_map_range, List.filterMap_map]
  have hc : ∀ k : Nat, 1 + k = k + 1 := fun k => Nat.add_comm 1 k
  simp only [Function.comp, hc]
  exact filterMap_ite_eq_map_filter (fun k => reportsProgress (env (k + 1)))
    (fun k => progressValue urls.length (k + 1)) (List.range urls.length)

/-- Counterexample to claim C5 as stated: the reported percentages are NOT
the values for every idx = 1..T — the fetch-failure `continue` skips the
progress-bar update, so with three URLs whose first fetch returns falsy
content only [58, 75] is reported, not the claimed [41, 58, 75]. -/
theorem progress_reports_skip_on_fetch_failure :
    (List.range 3).map (fun k => progressValue 3 (k + 1)) = [41, 58, 75] ∧
      progressReports ["http://a", "http://b", "http://c"]
          (fun idx => if idx = 1 then ⟨.ok none, .ok none⟩
            else ⟨.ok (some "content"), .ok (some "summary")⟩) = [58, 75] ∧
      progressReports ["http://a", "http://b", "http://c"]
          (fun idx => if idx = 1 then ⟨.ok none, .ok none⟩
            else ⟨.ok (some "content"), .ok (some "summary")⟩)
        ≠ (List.range 3).map (fun k => progressValue 3 (k + 1)) :=
  ⟨by decide, by decide, by decide⟩

/-- Claim C5 (amended): for a non-empty URL list the progress percentages
actually reported by `get_competitor_summaries` — one value
`min(25 + 50*idx/T, 100)` for each iteration idx that reaches the update,
fetch-failed iterations being skipped by the `continue` — form a
monotonically non-decreasing sequence whose every value lies in [25, 100]. -/
theorem progress_reports_monotone_bounded (urls : List String) (env : Nat → UrlEnv)
    (h : urls ≠ []) :
    List.Pairwise (· ≤ ·) (progressReports urls env) ∧
    (∀ v ∈ progressReports urls env, 25 ≤ v ∧ v ≤ 100) := by
  rw [progressReports_eq_map_filter_range]
  constructor
  · rw [List.pairwise_map]
    have hlt : List.Pairwise (· < ·)
        ((List.range urls.length).filter (fun k => reportsProgress (env (k + 1)))) :=
      (List.pairwise_lt_range urls.length).sublist (List.filter_sublist _)
    refine hlt.imp fun hab => ?_
    exact min_le_min (Nat.add_le_add_left (Nat.div_le_div_right (by omega)) 25) le_rfl
  · intro v hv
    simp only [List.mem_map, List.mem_filter, List.mem_range] at hv
    obtain ⟨k, _, rfl⟩ := hv
    refine ⟨le_min (Nat.le_add_right 25 _) (by omega), min_le_right _ _⟩

/-- Witness for the amended C5 at three URLs with one fetch failure: the
reported sequence is [58, 75], non-decreasing and inside [25, 100]. -/
theorem progress_reports_monotone_bounded_witness :
    (["http://a", "http://b", "http://c"] : List String) ≠ [] ∧
      progressReports ["http://a", "http://b", "http://c"]
          (fun idx => if idx = 1 then ⟨.ok none, .ok none⟩
            else ⟨.ok (some "content"), .ok (some "summary")⟩) = [58, 75] ∧
      List.Pairwise (· ≤ ·) (progressReports ["http://a", "http://b", "http://c"]
          (fun idx => if idx = 1 then ⟨.ok none, .ok none⟩
            else ⟨.ok (some "content"), .ok (some "summary")⟩)) ∧
      (∀ v ∈ progressReports ["http://a", "http://b", "http://c"]
          (fun idx => if idx = 1 then ⟨.ok none, .ok none⟩
            else ⟨.ok (some "content"), .ok (some "summary")⟩), 25 ≤ v ∧ v ≤ 100) :=
  ⟨by decide, by decide,
    (progress_reports_monotone_bounded ["http://a", "http://b", "http://c"]
      (fun idx => if idx = 1 then ⟨.ok none, .ok none⟩
        else ⟨.ok (some "content"), .ok (some "summary")⟩) (by decide)).1,
    (progress_reports_monotone_bounded ["http://a", "http://b", "http://c"]
      (fun idx => if idx = 1 then ⟨.ok none, .ok none⟩
        else ⟨.ok (some "content"), .ok (some "summary")⟩) (by decide)).2⟩

/-- Counterexample to claim C9 as stated: a run started with empty user
content terminates early WITHOUT replacing the previously stored result —
the prior value is still stored afterwards and no assignment happened. -/
theorem run_keeps_prior_result_on_early_return :
    run_content_analysis priorResultState 10 inertRunEnv = (priorResultState, false) ∧
      priorResultState.result = some (.errorString "prior") ∧
      (run_content_analysis priorResultState 10 inertRunEnv).1.result
        = some (.errorString "prior") :=
  ⟨by decide, by decide, by decide⟩

/-- Claim C9 (amended): `run_content_analysis` overwrites the stored result
only on the full success path (non-empty content, non-empty URL list, no
unexpected exception), storing the value returned by the analysis call; every
early-terminating run (empty content, zero URLs, unexpected error) leaves the
session state — including any prior result — unchanged. -/
theorem run_result_overwrite_conditions (s : SessionState) (n : Nat) (env : RunEnv) :
    (s.user_content = "" → run_content_analysis s n env = (s, false)) ∧
    (s.user_content ≠ "" → (fetch_top_urls s.keyword n env.net).urls = [] →
      run_content_analysis s n env = (s, false)) ∧
    (s.user_content ≠ "" → (fetch_top_urls s.keyword n env.net).urls ≠ [] →
      env.unexpectedExn = true → run_content_analysis s n env = (s, false)) ∧
    (s.user_content ≠ "" → (fetch_top_urls s.keyword n env.net).urls ≠ [] →
      env.unexpectedExn = false →
      run_content_analysis s n env
        = ({ s with result := some (analyze_content_with_openai s.user_content s.keyword
              (get_competitor_summaries (fetch_top_urls s.keyword n env.net).urls env.urlEnv)
              env.analyzeEnv).result }, true)) := by
  refine ⟨fun h1 => ?_, fun h1 h2 => ?_, fun h1 h2 h3 => ?_, fun h1 h2 h3 => ?_⟩
  · simp [run_content_analysis, h1]
  · simp [run_content_analysis, h1, h2]
  · simp [run_content_analysis, h1, h2, h3]
  · simp [run_content_analysis, h1, h2, h3]

/-- Witness for the amended C9 on a fully successful run: the prior stored
result is replaced by the stream returned by the analysis call. -/
theorem run_result_overwrite_conditions_witness :
    busySessionState.user_content ≠ "" ∧
      (fetch_top_urls busySessionState.keyword 1 successRunEnv.net).urls ≠ [] ∧
      successRunEnv.unexpectedExn = false ∧
      run_content_analysis busySessionState 1 successRunEnv
        = ({ busySessionState with result := some .stream }, true) :=
  ⟨by decide, by decide, rfl,
    ((run_result_overwrite_conditions busySessionState 1 successRunEnv).2.2.2
      (by decide) (by decide) rfl).trans (by decide)⟩
